import Mathlib

/-!
Verification of the core of `aiogram/bot/base.py` (class `BaseBot`):
the file-sending dispatcher `_send_file`, the chunked downloader
`download_file`, and the temporary-session lifecycle
(`create_temp_session` / `destroy_temp_session`).

The embedding is shallow: Python byte strings become `List Nat`,
Python dicts used as payloads become association lists with
dict-update semantics, the aiohttp session objects become numeric
handles tracked in an explicit `BotState`, and the single HTTP round
trip made by a call is recorded as an explicit `TransportCall` trace.
-/

namespace Aiogram

/-- The endpoint identifiers from `api.ApiMethods` that `_send_file`
can target (the seven send-media endpoints). -/
inductive ApiMethods where
  | SEND_PHOTO
  | SEND_AUDIO
  | SEND_DOCUMENT
  | SEND_STICKER
  | SEND_VIDEO
  | SEND_VOICE
  | SEND_VIDEO_NOTE
deriving DecidableEq, Repr

/-- Bytes of a Python `bytes` value. -/
abbrev Bytes := List Nat

/-- A Python dict used as a request payload: field name to string value,
with dict-update semantics provided by `dictSet`. -/
abbrev Payload := List (String × String)

/-- Python dict assignment `d[k] = v`: replace the value at an existing
key, otherwise append the new binding. -/
def dictSet (d : Payload) (k v : String) : Payload :=
  match d with
  | [] => [(k, v)]
  | (k2, v2) :: rest =>
      if k2 = k then (k, v) :: rest else (k2, v2) :: dictSet rest k v

/-- Python dict lookup `d.get(k)`. -/
def dictGet (d : Payload) (k : String) : Option String :=
  match d with
  | [] => none
  | (k2, v2) :: rest => if k2 = k then some v2 else dictGet rest k

/-- The `file` argument of `_send_file`, dispatched in the source by
`isinstance`: a `str` remote identifier, an `io.IOBase` stream handle
(whose `.read()` yields the listed bytes), a `bytes` buffer, or any
other object (passed through as a bytes-like part). -/
inductive FileArg where
  | str (s : String)
  | stream (contents : Bytes)
  | bytes (b : Bytes)
  | other (b : Bytes)
deriving DecidableEq, Repr

/-- One call to the Transport layer (`self.request(method, data, files)`):
the endpoint, the form payload, and the optional multipart parts
(name paired with binary content). -/
structure TransportCall where
  method : ApiMethods
  data : Payload
  files : Option (List (String × Bytes))
deriving DecidableEq, Repr

/-- The local `methods` dict of `BaseBot._send_file`: the fixed
file-kind → endpoint table. -/
def methods : List (String × ApiMethods) :=
  [("photo", ApiMethods.SEND_PHOTO),
   ("audio", ApiMethods.SEND_AUDIO),
   ("document", ApiMethods.SEND_DOCUMENT),
   ("sticker", ApiMethods.SEND_STICKER),
   ("video", ApiMethods.SEND_VIDEO),
   ("voice", ApiMethods.SEND_VOICE),
   ("video_note", ApiMethods.SEND_VIDEO_NOTE)]

/-- Dict lookup `methods[file_type]`, returning `none` where Python
raises `KeyError`. -/
def lookupMethod (file_type : String) : Option ApiMethods :=
  (methods.find? (fun p => p.1 == file_type)).map (fun p => p.2)

/-- Outcome of `_send_file`: either the `KeyError` raised by
`methods[file_type]` (recording the payload and the Transport calls made
up to the raise), or normal completion with the list of Transport calls
made and the payload as the caller sees it afterwards (the source
mutates the payload in place in the identifier branch). -/
inductive SendFileOutcome where
  | keyError (key : String) (payloadAtRaise : Payload)
      (callsMade : List TransportCall)
  | ok (callsMade : List TransportCall) (payloadAfter : Payload)
deriving DecidableEq, Repr

/-- Shallow embedding of `BaseBot._send_file(file_type, file, payload)`.
The source first evaluates `method = methods[file_type]` (raising
`KeyError` for an unsupported kind before anything else happens), then
dispatches on the shape of `file`; note that only the `str` branch uses
`method` — the stream, bytes and fallback branches hardcode
`api.ApiMethods.SEND_PHOTO`, exactly as the source does. -/
def sendFile (file_type : String) (file : FileArg) (payload : Payload) :
    SendFileOutcome :=
  match lookupMethod file_type with
  | none => SendFileOutcome.keyError file_type payload []
  | some method =>
    match file with
    | FileArg.str s =>
        let payload2 := dictSet payload file_type s
        SendFileOutcome.ok [⟨method, payload2, none⟩] payload2
    | FileArg.stream contents =>
        SendFileOutcome.ok
          [⟨ApiMethods.SEND_PHOTO, payload, some [(file_type, contents)]⟩]
          payload
    | FileArg.bytes b =>
        SendFileOutcome.ok
          [⟨ApiMethods.SEND_PHOTO, payload, some [(file_type, b)]⟩]
          payload
    | FileArg.other b =>
        SendFileOutcome.ok
          [⟨ApiMethods.SEND_PHOTO, payload, some [(file_type, b)]⟩]
          payload

/-- The per-client state relevant to the temp-session machinery:
`nextId` generates fresh session handles, `tempSessions` is the
`self._temp_sessions` list (session handles in insertion order), and
`closedSessions` records which handles have had `.close()` called. -/
structure BotState where
  nextId : Nat
  tempSessions : List Nat
  closedSessions : List Nat
deriving DecidableEq, Repr

/-- `BaseBot.create_temp_session`: build a fresh single-connection
session and append it to `self._temp_sessions`; returns the handle and
the updated state. -/
def create_temp_session (st : BotState) : Nat × BotState :=
  (st.nextId,
   { nextId := st.nextId + 1,
     tempSessions := st.tempSessions ++ [st.nextId],
     closedSessions := st.closedSessions })

/-- `BaseBot.destroy_temp_session(session)`: close the session if it is
not already closed, then remove it from `self._temp_sessions` if
present.  Total — it never raises. -/
def destroy_temp_session (st : BotState) (sid : Nat) : BotState :=
  { st with
    closedSessions :=
      if sid ∈ st.closedSessions then st.closedSessions
      else sid :: st.closedSessions,
    tempSessions := st.tempSessions.erase sid }

/-- A writable sink (`io.IOBase`): `id` stands for Python object
identity, `content`/`pos` are the byte buffer and the cursor, and
`closed` records whether `.close()` was ever called on it. -/
structure Sink where
  id : Nat
  content : Bytes
  pos : Nat
  closed : Bool
deriving DecidableEq, Repr

/-- `dest.write(chunk)`: overwrite at the cursor and advance it. -/
def Sink.write (s : Sink) (bs : Bytes) : Sink :=
  { s with
    content := s.content.take s.pos ++ bs ++ s.content.drop (s.pos + bs.length),
    pos := s.pos + bs.length }

/-- `dest.seek(0)`. -/
def Sink.seekStart (s : Sink) : Sink := { s with pos := 0 }

/-- The `destination` argument of `download_file`: `None` (a fresh
`io.BytesIO` is created), an already-open `io.IOBase` stream, or a
filename (opened with `open(destination, 'wb')`, which can itself fail —
the `openFails` flag supplies that environment behaviour). -/
inductive Destination where
  | none
  | stream (s : Sink)
  | filename (name : String) (openFails : Bool)
deriving DecidableEq, Repr

/-- Behaviour of the GET issued by `download_file`, as seen through the
chunk-read loop: either the full body arrives and the stream ends, or a
`read` times out after some delivered bytes, or some other
transport-level error occurs after some delivered bytes. -/
inductive GetResult where
  | success (body : Bytes)
  | timeoutAfter (delivered : Bytes)
  | failAfter (delivered : Bytes)
deriving DecidableEq, Repr

/-- The errors that can escape `download_file`.  `rawTimeout` and
`rawTransport` are the underlying library exceptions propagating
unchanged (the source has no `except` clause).  `downloadTimeout` and
`networkError` — modelled from the spec's error taxonomy (§7), the
exception classes themselves are not under `src/` — are the wrapper
errors the spec describes; the embedding of the source never produces
them. -/
inductive DlError where
  | rawTimeout
  | rawTransport
  | rawOpenError
  | downloadTimeout
  | networkError
deriving DecidableEq, Repr

/-- The line `dest = destination if isinstance(destination, io.IOBase)
else open(destination, 'wb')`: a caller stream is used as-is, otherwise
a fresh writable sink is produced — except that `open` on a filename may
itself raise an `OSError` (`rawOpenError`), modelled by the
destination's `openFails` flag. -/
def openDest : Destination → Except DlError Sink
  | Destination.none =>
      Except.ok { id := 0, content := [], pos := 0, closed := false }
  | Destination.stream s => Except.ok s
  | Destination.filename _ openFails =>
      if openFails then Except.error DlError.rawOpenError
      else Except.ok { id := 0, content := [], pos := 0, closed := false }

/-- The chunk-read loop `while True: chunk = read(chunk_size); if not
chunk: break; ...` applied to a byte stream `bs`: each `read` yields the
next `k` bytes (fewer at the end), and the loop stops at the first empty
chunk.  `fuel` bounds the iteration count; `chunksOf` supplies enough. -/
def readLoop (fuel k : Nat) (bs : Bytes) : List Bytes :=
  match fuel with
  | 0 => []
  | fuel + 1 =>
      let chunk := bs.take k
      if chunk = [] then []
      else chunk :: readLoop fuel k (bs.drop k)

/-- The chunks produced by the read loop on stream `bs` with chunk size
`k` (for `k = 0` Python's `read(0)` returns `b''` at once and the loop
exits immediately, which the definition reproduces). -/
def chunksOf (k : Nat) (bs : Bytes) : List Bytes :=
  readLoop (bs.length + 1) k bs

/-- `dest.write(chunk); dest.flush()` for each chunk in order (flush
has no observable effect in the model). -/
def writeChunks (dest : Sink) : List Bytes → Sink
  | [] => dest
  | c :: cs => writeChunks (dest.write c) cs

/-- Shallow embedding of `BaseBot.download_file(file_path, destination,
timeout, chunk_size, seek)`.  The remote behaviour is supplied as `get`.
Step for step: default the destination to a fresh `io.BytesIO`; create a
temp session; resolve `dest` via the `open(...)` line — this runs after
`create_temp_session` and before the `try`, so when the open itself
raises, the error propagates with the temp session still tracked (the
`finally` never runs); otherwise, inside `try`, stream the chunks into
`dest`, then `dest.seek(0)` when `seek` is set, and return `dest`;
errors from the reads propagate unchanged; the `finally` block destroys
the temp session on every path through the `try` before the call
returns or raises. -/
def download_file (st : BotState) (destination : Destination)
    (get : GetResult) (chunk_size : Nat) (seek : Bool) :
    Except DlError Sink × BotState :=
  let created := create_temp_session st
  let sid := created.1
  let st1 := created.2
  match openDest destination with
  | Except.error e => (Except.error e, st1)
  | Except.ok dest =>
      let result : Except DlError Sink :=
        match get with
        | GetResult.success body =>
            let d := writeChunks dest (chunksOf chunk_size body)
            Except.ok (if seek then d.seekStart else d)
        | GetResult.timeoutAfter _ => Except.error DlError.rawTimeout
        | GetResult.failAfter _ => Except.error DlError.rawTransport
      (result, destroy_temp_session st1 sid)

/-- Setting a key then reading it back yields exactly the value set. -/
theorem dictGet_dictSet (d : Payload) (k v : String) :
    dictGet (dictSet d k v) k = some v := by
  induction d with
  | nil => simp [dictSet, dictGet]
  | cons hd tl ih =>
      obtain ⟨k2, v2⟩ := hd
      by_cases h : k2 = k
      · simp [dictSet, dictGet, h]
      · simp [dictSet, dictGet, h, ih]

/-- Writing never changes the sink's identity. -/
theorem writeChunks_id (cs : List Bytes) (s : Sink) :
    (writeChunks s cs).id = s.id := by
  induction cs generalizing s with
  | nil => rfl
  | cons c cs ih => exact ih (s.write c)

/-- Writing never closes the sink. -/
theorem writeChunks_closed (cs : List Bytes) (s : Sink) :
    (writeChunks s cs).closed = s.closed := by
  induction cs generalizing s with
  | nil => rfl
  | cons c cs ih => exact ih (s.write c)

/-- A write with the cursor at the end of the buffer appends and leaves
the cursor at the new end. -/
theorem write_atEnd (s : Sink) (c : Bytes) (h : s.pos = s.content.length) :
    (s.write c).content = s.content ++ c ∧
    (s.write c).pos = (s.write c).content.length := by
  constructor
  · show s.content.take s.pos ++ c ++ s.content.drop (s.pos + c.length)
        = s.content ++ c
    rw [h, List.take_length,
        List.drop_eq_nil_of_le (by omega : s.content.length ≤ s.content.length + c.length)]
    simp
  · show s.pos + c.length
        = (s.content.take s.pos ++ c ++ s.content.drop (s.pos + c.length)).length
    rw [h, List.take_length,
        List.drop_eq_nil_of_le (by omega : s.content.length ≤ s.content.length + c.length)]
    simp

/-- Writing a chunk list with the cursor at the end appends the
concatenation of the chunks, keeping the cursor at the end. -/
theorem writeChunks_atEnd (cs : List Bytes) (s : Sink)
    (h : s.pos = s.content.length) :
    (writeChunks s cs).content = s.content ++ cs.flatten ∧
    (writeChunks s cs).pos = (writeChunks s cs).content.length := by
  induction cs generalizing s with
  | nil => simpa [writeChunks] using h
  | cons c cs ih =>
      have hw := write_atEnd s c h
      have hrec := ih (s.write c) hw.2
      refine ⟨?_, hrec.2⟩
      show (writeChunks (s.write c) cs).content = s.content ++ (c :: cs).flatten
      rw [hrec.1, hw.1, List.flatten_cons, List.append_assoc]

/-- The chunks produced by the read loop concatenate back to the
stream, provided the chunk size is positive and the fuel exceeds the
stream length. -/
theorem readLoop_flatten (fuel : Nat) : ∀ (k : Nat) (bs : Bytes), 0 < k →
    bs.length < fuel → (readLoop fuel k bs).flatten = bs := by
  induction fuel with
  | zero => intro k bs _ h; exact absurd h (Nat.not_lt_zero _)
  | succ fuel ih =>
      intro k bs hk hlen
      cases bs with
      | nil => simp [readLoop]
      | cons b rest =>
          obtain ⟨k2, rfl⟩ : ∃ k2, k = k2 + 1 := ⟨k - 1, by omega⟩
          have hchunk : (b :: rest).take (k2 + 1) ≠ [] := by
            simp [List.take_succ_cons]
          rw [readLoop, if_neg hchunk, List.flatten_cons,
              ih (k2 + 1) ((b :: rest).drop (k2 + 1)) hk
                (by
                  have hl := hlen
                  simp [List.length_drop, List.length_cons] at hl ⊢
                  omega)]
          exact List.take_append_drop (k2 + 1) (b :: rest)

/-- The read loop's chunks concatenate back to the full stream for any
positive chunk size. -/
theorem chunksOf_flatten (k : Nat) (bs : Bytes) (hk : 0 < k) :
    (chunksOf k bs).flatten = bs :=
  readLoop_flatten (bs.length + 1) k bs hk (Nat.lt_succ_self _)

/-- C1: the image-endpoint-hardcoding defect, evaluated at a failing
input: for kind `audio` with a `bytes` buffer, `_send_file` sends to
`SEND_PHOTO`, although the kind table maps `audio` to `SEND_AUDIO` —
the non-identifier branches do not route by kind. -/
theorem send_file_nonstring_hits_photo_endpoint :
    sendFile "audio" (FileArg.bytes [1, 2, 3]) [] =
      SendFileOutcome.ok
        [⟨ApiMethods.SEND_PHOTO, [], some [("audio", [1, 2, 3])]⟩] []
    ∧ lookupMethod "audio" = some ApiMethods.SEND_AUDIO
    ∧ ApiMethods.SEND_PHOTO ≠ ApiMethods.SEND_AUDIO :=
  ⟨rfl, rfl, by decide⟩

/-- C2 (counterexample): on a chunk-read timeout, `download_file` does
not fail with `DownloadTimeout`, and on another transport error it does
not fail with `NetworkError`: the source has no except clause, so the
raw errors escape. -/
theorem download_file_timeout_not_wrapped :
    (download_file ⟨0, [], []⟩ Destination.none
        (GetResult.timeoutAfter []) 5 true).1
      = Except.error DlError.rawTimeout
    ∧ (download_file ⟨0, [], []⟩ Destination.none
        (GetResult.timeoutAfter []) 5 true).1
      ≠ Except.error DlError.downloadTimeout
    ∧ (download_file ⟨0, [], []⟩ Destination.none
        (GetResult.failAfter []) 5 true).1
      ≠ Except.error DlError.networkError := by
  refine ⟨rfl, ?_, ?_⟩
  · show Except.error DlError.rawTimeout ≠ Except.error DlError.downloadTimeout
    simp
  · show Except.error DlError.rawTransport ≠ Except.error DlError.networkError
    simp

/-- C2 (amended): for every call that reaches the GET (the destination
resolved — always for the default and caller-stream destinations, and
for a filename whose open succeeds), a chunk-read timeout propagates the
underlying timeout error unchanged and any other transport error
propagates the underlying transport error unchanged — neither is
wrapped. -/
theorem download_file_propagates_raw_errors :
    (∀ (st : BotState) (k : Nat) (seek : Bool) (delivered : Bytes),
      (download_file st Destination.none
          (GetResult.timeoutAfter delivered) k seek).1
        = Except.error DlError.rawTimeout
      ∧ (download_file st Destination.none
          (GetResult.failAfter delivered) k seek).1
        = Except.error DlError.rawTransport)
    ∧ (∀ (st : BotState) (s : Sink) (k : Nat) (seek : Bool)
        (delivered : Bytes),
      (download_file st (Destination.stream s)
          (GetResult.timeoutAfter delivered) k seek).1
        = Except.error DlError.rawTimeout
      ∧ (download_file st (Destination.stream s)
          (GetResult.failAfter delivered) k seek).1
        = Except.error DlError.rawTransport)
    ∧ (∀ (st : BotState) (nm : String) (k : Nat) (seek : Bool)
        (delivered : Bytes),
      (download_file st (Destination.filename nm false)
          (GetResult.timeoutAfter delivered) k seek).1
        = Except.error DlError.rawTimeout
      ∧ (download_file st (Destination.filename nm false)
          (GetResult.failAfter delivered) k seek).1
        = Except.error DlError.rawTransport) := by
  refine ⟨?_, ?_, ?_⟩ <;> intros <;> exact ⟨rfl, rfl⟩

/-- C3 (counterexample): when the filename destination's `open` fails,
`download_file` raises the raw open error with the temp session still in
the tracked list — the outstanding-handle count after the call is one
more than before, not equal to it. -/
theorem download_file_open_failure_leaks_handle :
    ((download_file ⟨0, [], []⟩ (Destination.filename "f" true)
        (GetResult.success []) 5 true).2).tempSessions = [0]
    ∧ (⟨0, [], []⟩ : BotState).tempSessions = []
    ∧ ((download_file ⟨0, [], []⟩ (Destination.filename "f" true)
        (GetResult.success []) 5 true).2).tempSessions.length
      ≠ (⟨0, [], []⟩ : BotState).tempSessions.length
    ∧ (download_file ⟨0, [], []⟩ (Destination.filename "f" true)
        (GetResult.success []) 5 true).1
      = Except.error DlError.rawOpenError :=
  ⟨rfl, rfl, by decide, rfl⟩

/-- C3 (amended): once the destination has resolved (always for the
default and caller-stream destinations, and for a filename whose open
succeeds), every path through the `try` — success, timeout or other
transport error — releases the temp session before the call returns or
raises, restoring the outstanding-handle count; but when the filename
open itself fails (it runs after `create_temp_session` and outside the
`try`/`finally`), the call raises with the handle still tracked, so the
count is one more than before. -/
theorem download_file_releases_handle_when_open_succeeds :
    (∀ (st : BotState) (get : GetResult) (k : Nat) (seek : Bool),
      ((download_file st Destination.none get k seek).2).tempSessions.length
        = st.tempSessions.length)
    ∧ (∀ (st : BotState) (s : Sink) (get : GetResult) (k : Nat) (seek : Bool),
      ((download_file st (Destination.stream s) get k seek).2).tempSessions.length
        = st.tempSessions.length)
    ∧ (∀ (st : BotState) (nm : String) (get : GetResult) (k : Nat) (seek : Bool),
      ((download_file st (Destination.filename nm false) get k seek).2).tempSessions.length
        = st.tempSessions.length)
    ∧ (∀ (st : BotState) (nm : String) (get : GetResult) (k : Nat) (seek : Bool),
      ((download_file st (Destination.filename nm true) get k seek).2).tempSessions.length
        = st.tempSessions.length + 1) := by
  refine ⟨?_, ?_, ?_, ?_⟩ <;> intro st
  · intro get k seek
    have hmem : st.nextId ∈ st.tempSessions ++ [st.nextId] := by simp
    simp [download_file, openDest, create_temp_session, destroy_temp_session,
          List.length_erase_of_mem hmem]
  · intro s get k seek
    have hmem : st.nextId ∈ st.tempSessions ++ [st.nextId] := by simp
    simp [download_file, openDest, create_temp_session, destroy_temp_session,
          List.length_erase_of_mem hmem]
  · intro nm get k seek
    have hmem : st.nextId ∈ st.tempSessions ++ [st.nextId] := by simp
    simp [download_file, openDest, create_temp_session, destroy_temp_session,
          List.length_erase_of_mem hmem]
  · intro nm get k seek
    simp [download_file, openDest, create_temp_session]

/-- C4: for a remote-identifier string, `_send_file` makes one
Transport call with no multipart parts, and the payload field for the
kind holds exactly the identifier. -/
theorem send_file_identifier_no_multipart (file_type s : String)
    (payload : Payload) (m : ApiMethods)
    (h : lookupMethod file_type = some m) :
    sendFile file_type (FileArg.str s) payload =
      SendFileOutcome.ok [⟨m, dictSet payload file_type s, none⟩]
        (dictSet payload file_type s)
    ∧ dictGet (dictSet payload file_type s) file_type = some s := by
  refine ⟨?_, dictGet_dictSet payload file_type s⟩
  simp [sendFile, h]

/-- C4 witness: concrete identifier send. -/
theorem send_file_identifier_no_multipart_witness :
    lookupMethod "photo" = some ApiMethods.SEND_PHOTO
    ∧ (sendFile "photo" (FileArg.str "abc") [] =
        SendFileOutcome.ok
          [⟨ApiMethods.SEND_PHOTO, dictSet [] "photo" "abc", none⟩]
          (dictSet [] "photo" "abc")
       ∧ dictGet (dictSet [] "photo" "abc") "photo" = some "abc") :=
  ⟨rfl, send_file_identifier_no_multipart "photo" "abc" [] ApiMethods.SEND_PHOTO rfl⟩

/-- C5: for a raw byte buffer, `_send_file` makes one Transport call
with exactly one multipart part, named by the kind tag and containing
the input bytes unchanged. -/
theorem send_file_bytes_single_part (file_type : String) (b : Bytes)
    (payload : Payload) (m : ApiMethods)
    (h : lookupMethod file_type = some m) :
    sendFile file_type (FileArg.bytes b) payload =
      SendFileOutcome.ok
        [⟨ApiMethods.SEND_PHOTO, payload, some [(file_type, b)]⟩] payload := by
  simp [sendFile, h]

/-- C5 witness: concrete bytes send. -/
theorem send_file_bytes_single_part_witness :
    lookupMethod "document" = some ApiMethods.SEND_DOCUMENT
    ∧ sendFile "document" (FileArg.bytes [7, 8]) [("chat_id", "1")] =
        SendFileOutcome.ok
          [⟨ApiMethods.SEND_PHOTO, [("chat_id", "1")],
            some [("document", [7, 8])]⟩]
          [("chat_id", "1")] :=
  ⟨rfl, send_file_bytes_single_part "document" [7, 8] [("chat_id", "1")]
    ApiMethods.SEND_DOCUMENT rfl⟩

/-- C6: on a successful download into a fresh default sink, the final
content is the concatenation of all chunks read (the body), and with
seek set the cursor ends at position 0. -/
theorem download_file_streams_all_chunks (st : BotState) (body : Bytes)
    (k : Nat) (seek : Bool) (hk : 0 < k) :
    ∃ d st2,
      download_file st Destination.none (GetResult.success body) k seek
        = (Except.ok d, st2)
      ∧ d.content = body ∧ (seek = true → d.pos = 0) := by
  have h0 := writeChunks_atEnd (chunksOf k body)
    { id := 0, content := [], pos := 0, closed := false } rfl
  have hc : (writeChunks { id := 0, content := [], pos := 0, closed := false }
      (chunksOf k body)).content = body := by
    rw [h0.1, List.nil_append, chunksOf_flatten k body hk]
  refine ⟨_, _, rfl, ?_, ?_⟩
  · cases seek <;> simp [Sink.seekStart, hc]
  · intro hs
    subst hs
    simp [Sink.seekStart]

/-- C6 witness: the spec's example — two chunks hello and world with
chunk size 5 yield content helloworld and cursor 0. -/
theorem download_file_streams_all_chunks_witness :
    0 < 5
    ∧ ∃ d st2,
      download_file ⟨0, [], []⟩ Destination.none
          (GetResult.success
            [104, 101, 108, 108, 111, 119, 111, 114, 108, 100]) 5 true
        = (Except.ok d, st2)
      ∧ d.content = [104, 101, 108, 108, 111, 119, 111, 114, 108, 100]
      ∧ (true = true → d.pos = 0) :=
  ⟨by decide,
   download_file_streams_all_chunks ⟨0, [], []⟩
     [104, 101, 108, 108, 111, 119, 111, 114, 108, 100] 5 true (by decide)⟩

/-- C7: for every supported kind and every attachment shape,
`_send_file` completes with exactly one Transport call. -/
theorem send_file_single_transport_call (file_type : String)
    (file : FileArg) (payload : Payload) (m : ApiMethods)
    (h : lookupMethod file_type = some m) :
    ∃ calls payload2,
      sendFile file_type file payload = SendFileOutcome.ok calls payload2
      ∧ calls.length = 1 := by
  cases file with
  | str s =>
      exact ⟨[⟨m, dictSet payload file_type s, none⟩],
        dictSet payload file_type s, by simp [sendFile, h], rfl⟩
  | stream contents =>
      exact ⟨[⟨ApiMethods.SEND_PHOTO, payload, some [(file_type, contents)]⟩],
        payload, by simp [sendFile, h], rfl⟩
  | bytes b =>
      exact ⟨[⟨ApiMethods.SEND_PHOTO, payload, some [(file_type, b)]⟩],
        payload, by simp [sendFile, h], rfl⟩
  | other b =>
      exact ⟨[⟨ApiMethods.SEND_PHOTO, payload, some [(file_type, b)]⟩],
        payload, by simp [sendFile, h], rfl⟩

/-- C7 witness: concrete fallback-shape send. -/
theorem send_file_single_transport_call_witness :
    lookupMethod "video" = some ApiMethods.SEND_VIDEO
    ∧ ∃ calls payload2,
      sendFile "video" (FileArg.other [9]) [("chat_id", "1")] =
        SendFileOutcome.ok calls payload2
      ∧ calls.length = 1 :=
  ⟨rfl, send_file_single_transport_call "video" (FileArg.other [9])
    [("chat_id", "1")] ApiMethods.SEND_VIDEO rfl⟩

/-- C8: for an unsupported kind, `_send_file` raises the key-lookup
error with the payload untouched and no Transport call made. -/
theorem send_file_unknown_kind_keyerror (file_type : String)
    (file : FileArg) (payload : Payload)
    (h : lookupMethod file_type = none) :
    sendFile file_type file payload =
      SendFileOutcome.keyError file_type payload [] := by
  simp [sendFile, h]

/-- C8 witness: the kind animation is not in the table. -/
theorem send_file_unknown_kind_keyerror_witness :
    lookupMethod "animation" = none
    ∧ sendFile "animation" (FileArg.bytes [1]) [("chat_id", "1")] =
        SendFileOutcome.keyError "animation" [("chat_id", "1")] [] :=
  ⟨rfl, send_file_unknown_kind_keyerror "animation" (FileArg.bytes [1])
    [("chat_id", "1")] rfl⟩

/-- C9: destroying an already-closed, already-untracked session is a
no-op on the whole state (and the function is total, so it raises
nothing); destroying a session that was never tracked leaves the
tracked list unchanged. -/
theorem destroy_temp_session_idempotent :
    (∀ (st : BotState) (sid : Nat), sid ∈ st.closedSessions →
        sid ∉ st.tempSessions → destroy_temp_session st sid = st)
    ∧ (∀ (st : BotState) (sid : Nat), sid ∉ st.tempSessions →
        (destroy_temp_session st sid).tempSessions = st.tempSessions) := by
  constructor
  · intro st sid h1 h2
    simp [destroy_temp_session, h1, List.erase_of_not_mem h2]
  · intro st sid h
    simp [destroy_temp_session, List.erase_of_not_mem h]

/-- C9 witness: a second destroy of session 2 changes nothing. -/
theorem destroy_temp_session_idempotent_witness :
    destroy_temp_session ⟨3, [1], [2]⟩ 2 = ⟨3, [1], [2]⟩
    ∧ (destroy_temp_session ⟨3, [1], [2]⟩ 2).tempSessions = [1] :=
  ⟨destroy_temp_session_idempotent.1 ⟨3, [1], [2]⟩ 2 (by decide) (by decide),
   destroy_temp_session_idempotent.2 ⟨3, [1], [2]⟩ 2 (by decide)⟩

/-- C10: `download_file` never closes the destination: a caller-supplied
stream is returned as the same object with its closed flag untouched,
and a filename destination yields a still-open file handle. -/
theorem download_file_never_closes_destination :
    (∀ (st : BotState) (s : Sink) (get : GetResult) (k : Nat) (seek : Bool)
        (d : Sink) (st2 : BotState),
        download_file st (Destination.stream s) get k seek
          = (Except.ok d, st2) →
        d.id = s.id ∧ d.closed = s.closed)
    ∧ (∀ (st : BotState) (nm : String) (of : Bool) (get : GetResult)
        (k : Nat) (seek : Bool) (d : Sink) (st2 : BotState),
        download_file st (Destination.filename nm of) get k seek
          = (Except.ok d, st2) →
        d.closed = false) := by
  constructor
  · intro st s get k seek d st2 h
    cases get with
    | success body =>
        have h1 : Except.ok
            (if seek then (writeChunks s (chunksOf k body)).seekStart
             else writeChunks s (chunksOf k body)) = Except.ok d :=
          congrArg Prod.fst h
        injection h1 with hd
        subst hd
        cases seek <;>
          simp [Sink.seekStart, writeChunks_id, writeChunks_closed]
    | timeoutAfter ds =>
        have h1 : (Except.error DlError.rawTimeout : Except DlError Sink)
            = Except.ok d := congrArg Prod.fst h
        exact Except.noConfusion h1
    | failAfter ds =>
        have h1 : (Except.error DlError.rawTransport : Except DlError Sink)
            = Except.ok d := congrArg Prod.fst h
        exact Except.noConfusion h1
  · intro st nm of get k seek d st2 h
    cases of with
    | true =>
        have h1 : (Except.error DlError.rawOpenError : Except DlError Sink)
            = Except.ok d := congrArg Prod.fst h
        exact Except.noConfusion h1
    | false =>
        cases get with
        | success body =>
            have h1 : Except.ok
                (if seek then
                  (writeChunks { id := 0, content := [], pos := 0, closed := false }
                    (chunksOf k body)).seekStart
                 else writeChunks { id := 0, content := [], pos := 0, closed := false }
                    (chunksOf k body)) = Except.ok d :=
              congrArg Prod.fst h
            injection h1 with hd
            subst hd
            cases seek <;>
              simp [Sink.seekStart, writeChunks_closed]
        | timeoutAfter ds =>
            have h1 : (Except.error DlError.rawTimeout : Except DlError Sink)
                = Except.ok d := congrArg Prod.fst h
            exact Except.noConfusion h1
        | failAfter ds =>
            have h1 : (Except.error DlError.rawTransport : Except DlError Sink)
                = Except.ok d := congrArg Prod.fst h
            exact Except.noConfusion h1

/-- C10 witness: a concrete open caller stream is returned with the
same identity and still open. -/
theorem download_file_never_closes_destination_witness :
    ((⟨5, [1, 2], 2, false⟩ : Sink).id = (⟨5, [], 0, false⟩ : Sink).id
      ∧ (⟨5, [1, 2], 2, false⟩ : Sink).closed
          = (⟨5, [], 0, false⟩ : Sink).closed) :=
  download_file_never_closes_destination.1 ⟨0, [], []⟩ ⟨5, [], 0, false⟩
    (GetResult.success [1, 2]) 1 false ⟨5, [1, 2], 2, false⟩ ⟨1, [], [0]⟩ rfl

end Aiogram
